import Mathlib

/-!
Shallow embedding of the parachute subsystem of laserpas/ardupilot:
the release controller `AP_Parachute` (AP_Parachute.cpp) and the
vehicle-side supervisory logic `Plane::parachute_release`,
`Plane::parachute_manual_release` and `Plane::parachute_emergency_check`
(ArduPlane/parachute.cpp).  Machine `uint32_t` millisecond arithmetic is
modelled as `Nat` reduced modulo `2 ^ 32`; `int`/`float` quantities that
are only compared (attitude centidegrees, altitudes, PWM values, sink
rate) are modelled as `Int`.  GCS text messages and actuator writes are
modelled as explicit boolean flags / command lists in the result of each
operation.
-/

namespace ArduPilot

/-- The modulus `2 ^ 32` of C `uint32_t` arithmetic. -/
def U32 : Nat := 2 ^ 32

/-- C `uint32_t` subtraction `a - b` (wraparound-safe, as in
`millis() - timestamp`). -/
def sub32 (a b : Nat) : Nat := (a % U32 + U32 - b % U32) % U32

/-- Trigger type constant `AP_PARACHUTE_TRIGGER_TYPE_RELAY_0` (value 0,
from the `TYPE` parameter metadata: first relay). -/
def AP_PARACHUTE_TRIGGER_TYPE_RELAY_0 : Int := 0

/-- Trigger type constant `AP_PARACHUTE_TRIGGER_TYPE_RELAY_3` (value 3,
fourth relay). -/
def AP_PARACHUTE_TRIGGER_TYPE_RELAY_3 : Int := 3

/-- Trigger type constant `AP_PARACHUTE_TRIGGER_TYPE_SERVO` (value 10,
from the `TYPE` parameter metadata: servo). -/
def AP_PARACHUTE_TRIGGER_TYPE_SERVO : Int := 10

/-- Constant `PARACHUTE_CHECK_TRIGGER_MS`: 1 second of loss of control
triggers the parachute (ArduPlane/parachute.cpp). -/
def PARACHUTE_CHECK_TRIGGER_MS : Nat := 1000

/-- Constant `PARACHUTE_EMERGENCY_DURATION_MS`: stay for 2 seconds in
emergency mode if not resolved (ArduPlane/parachute.cpp). -/
def PARACHUTE_EMERGENCY_DURATION_MS : Nat := 2000

/-- State and configuration of the `AP_Parachute` object.  Parameter
fields mirror the `var_info` table of AP_Parachute.cpp; runtime fields
mirror the private members used by the .cpp.  `_release_duration_ms` is
modelled from the spec: the fixed hold duration
(`AP_PARACHUTE_RELEASE_DURATION_MS`) is defined in the missing header, so
it is kept as an arbitrary constant configuration field.
`notify_parachute_release` models the external notification flag
`AP_Notify::flags.parachute_release`. -/
structure ParachuteState where
  _enabled : Int
  _release_type : Int
  _servo_on_pwm : Int
  _servo_off_pwm : Int
  _alt_min : Int
  _alt_max : Int
  _delay_ms : Int
  _auto_enabled : Int
  _emergency_roll_margin : Int
  _emergency_pitch_margin : Int
  _emergency_sink_rate : Int
  _emergency_alt_threshold : Int
  _release_duration_ms : Nat
  _release_time : Nat
  _release_in_progress : Bool
  _released : Bool
  _release_initiated : Bool
  _control_loss_ms : Nat
  _emergency_start_ms : Nat
  notify_parachute_release : Bool
  deriving DecidableEq, Repr

/-- An actuator write issued by `AP_Parachute::update` (relay driver or
parachute-release servo channel). -/
inductive ActCmd where
  | relayOn (ch : Int)
  | relayOff (ch : Int)
  | servoSet (pwm : Int)
  deriving DecidableEq, Repr

/-- Modelled from the spec: accessor `enabled()` of the missing header
returns the enabled flag as a boolean. -/
def ParachuteState.enabledGet (s : ParachuteState) : Bool := s._enabled > 0

/-- Modelled from the spec: accessor `auto_enabled()` of the missing
header returns the automatic-release enabled flag as a boolean. -/
def ParachuteState.autoEnabledGet (s : ParachuteState) : Bool := s._auto_enabled > 0

/-- The effective release delay, `_delay_ms<=0 ? 0: (uint32_t)_delay_ms`
(AP_Parachute.cpp, inside `update`). -/
def ParachuteState.delayNat (s : ParachuteState) : Nat :=
  if s._delay_ms ≤ 0 then 0 else s._delay_ms.toNat

/-- The actuator writes of the ON branch of `AP_Parachute::update`: servo
to on-PWM for the servo trigger type, relay on for
`_release_type <= AP_PARACHUTE_TRIGGER_TYPE_RELAY_3`, nothing otherwise. -/
def ParachuteState.onCmds (s : ParachuteState) : List ActCmd :=
  if s._release_type = AP_PARACHUTE_TRIGGER_TYPE_SERVO then
    [ActCmd.servoSet s._servo_on_pwm]
  else if s._release_type ≤ AP_PARACHUTE_TRIGGER_TYPE_RELAY_3 then
    [ActCmd.relayOn s._release_type]
  else []

/-- The actuator writes of the OFF branch of `AP_Parachute::update`. -/
def ParachuteState.offCmds (s : ParachuteState) : List ActCmd :=
  if s._release_type = AP_PARACHUTE_TRIGGER_TYPE_SERVO then
    [ActCmd.servoSet s._servo_off_pwm]
  else if s._release_type ≤ AP_PARACHUTE_TRIGGER_TYPE_RELAY_3 then
    [ActCmd.relayOff s._release_type]
  else []

/-- Method `AP_Parachute::enabled(bool on_off)`: sets the enabled flag
and clears `_release_time`. -/
def ParachuteState.enabled (s : ParachuteState) (on_off : Bool) : ParachuteState :=
  { s with _enabled := if on_off then 1 else 0, _release_time := 0 }

/-- Method `AP_Parachute::release()`: no-op when not enabled; stamps
`_release_time` with the current `millis()` only when it is 0; always
sets `_release_initiated` and the external notification flag. -/
def ParachuteState.release (s : ParachuteState) (now : Nat) : ParachuteState :=
  if s._enabled ≤ 0 then s
  else
    let s1 := if s._release_time = 0 then { s with _release_time := now % U32 } else s
    { s1 with _release_initiated := true, notify_parachute_release := true }

/-- Method `AP_Parachute::update()`: returns the new state together with
the actuator writes issued during the call. -/
def ParachuteState.update (s : ParachuteState) (now : Nat) : ParachuteState × List ActCmd :=
  if s._enabled ≤ 0 then (s, [])
  else
    let time_diff := sub32 now s._release_time
    let delay_ms := s.delayNat
    if s._release_time ≠ 0 ∧ s._release_in_progress = false then
      if time_diff ≥ delay_ms then
        ({ s with _release_in_progress := true, _released := true }, s.onCmds)
      else (s, [])
    else if s._release_time = 0 ∨ time_diff ≥ (delay_ms + s._release_duration_ms) % U32 then
      ({ s with _release_in_progress := false, _release_time := 0,
                notify_parachute_release := false }, s.offCmds)
    else (s, [])

/-- Vehicle-side inputs read by the `Plane::parachute_*` functions during
one call (flight state, attitude and limits, altitude). -/
structure PlaneEnv where
  is_flying : Bool
  relative_altitude : Int
  control_mode_AUTO : Bool
  takeoff_complete : Bool
  land_complete : Bool
  nav_cmd_is_LAND : Bool
  roll_sensor : Int
  pitch_sensor : Int
  sink_rate : Int
  roll_limit_cd : Int
  pitch_limit_min_cd : Int
  deriving DecidableEq, Repr

/-- Result of `Plane::parachute_release`: the new controller state and
whether the critical "Parachute: Released" message was sent. -/
structure ReleaseOut where
  st : ParachuteState
  sentReleased : Bool
  deriving DecidableEq, Repr

/-- Function `Plane::parachute_release()`: returns immediately when
already released, otherwise sends the critical message and calls
`AP_Parachute::release`. -/
def Plane.parachute_release (s : ParachuteState) (now : Nat) : ReleaseOut :=
  if s._released then ⟨s, false⟩
  else ⟨s.release now, true⟩

/-- Result of `Plane::parachute_manual_release`: the returned boolean,
the new controller state, and which warning messages were sent. -/
structure ManualOut where
  ret : Bool
  st : ParachuteState
  sentNotFlying : Bool
  sentTooLow : Bool
  sentReleased : Bool
  deriving DecidableEq, Repr

/-- Function `Plane::parachute_manual_release()` (ArduPlane/parachute.cpp,
the canonical revision): rejects when not enabled or already released,
rejects with "Parachute: Not flying" when not flying, otherwise
releases. -/
def Plane.parachute_manual_release (s : ParachuteState) (env : PlaneEnv) (now : Nat) :
    ManualOut :=
  if ¬ s.enabledGet ∨ s._released then ⟨false, s, false, false, false⟩
  else if ¬ env.is_flying then ⟨false, s, true, false, false⟩
  else
    let r := Plane.parachute_release s now
    ⟨true, r.st, false, false, r.sentReleased⟩

/-- Function `Plane::parachute_manual_release()` of the earlier revision
kept in the repository (second document of src/unnamed/part_000): same as
the canonical one but with an additional "Parachute: Too low" rejection
when `relative_altitude() < parachute.alt_min()`. -/
def Plane.parachute_manual_release_v0 (s : ParachuteState) (env : PlaneEnv) (now : Nat) :
    ManualOut :=
  if ¬ s.enabledGet ∨ s._released then ⟨false, s, false, false, false⟩
  else if ¬ env.is_flying then ⟨false, s, true, false, false⟩
  else if env.relative_altitude < s._alt_min then ⟨false, s, false, true, false⟩
  else
    let r := Plane.parachute_release s now
    ⟨true, r.st, false, false, r.sentReleased⟩

/-- The "none of the advanced emergency triggers worked" condition of
`Plane::parachute_emergency_check` (ArduPlane/parachute.cpp line 91):
`labs(roll) < roll_limit + roll_margin && pitch > pitch_limit_min -
pitch_margin && sink_rate < sink_rate_threshold`. -/
def noDeviation (s : ParachuteState) (env : PlaneEnv) : Bool :=
  decide (|env.roll_sensor| < env.roll_limit_cd + s._emergency_roll_margin) &&
  decide (env.pitch_sensor > env.pitch_limit_min_cd - s._emergency_pitch_margin) &&
  decide (env.sink_rate < s._emergency_sink_rate)

/-- Result of `Plane::parachute_emergency_check`: the new controller
state, which warnings were sent, whether the release path was entered
(`attempted`), and whether "Parachute: Released" was sent. -/
structure EmerOut where
  st : ParachuteState
  warnDeviation : Bool
  warnLosingControl : Bool
  warnRestored : Bool
  attempted : Bool
  sentReleased : Bool
  deriving DecidableEq, Repr

/-- The output of the early-return gating branches of
`Plane::parachute_emergency_check`: reset `_control_loss_ms` to 0, return
without any message, attempt, or other state change. -/
def emergencyGatedOut (s : ParachuteState) : EmerOut :=
  ⟨{ s with _control_loss_ms := 0 }, false, false, false, false, false⟩

/-- The tail of `Plane::parachute_emergency_check` that runs once every
gating check has passed ("at this point we consider control lost"): stamp
`_control_loss_ms` when it is 0, compute `emergency_mode` from
`now - control_loss_ms() > PARACHUTE_CHECK_TRIGGER_MS` (stamping
`_emergency_start_ms` with `now` whenever it holds), attempt the release
inside the `alt_min`/`alt_max` bounds while
`now - emergency_start_ms() < PARACHUTE_EMERGENCY_DURATION_MS`, and warn
"Emergency: Control restored" when `emergency_mode` holds but that window
has passed. -/
def emergencyCore (s : ParachuteState) (env : PlaneEnv) (now : Nat) (wDev : Bool) : EmerOut :=
  let wLC := decide (s._control_loss_ms = 0)
  let s1 := if s._control_loss_ms = 0 then { s with _control_loss_ms := now % U32 } else s
  if sub32 now s1._control_loss_ms > PARACHUTE_CHECK_TRIGGER_MS then
    let s2 := { s1 with _emergency_start_ms := now % U32 }
    if sub32 now s2._emergency_start_ms < PARACHUTE_EMERGENCY_DURATION_MS then
      if env.relative_altitude > s2._alt_min ∧
          (s2._alt_max < 0 ∨ env.relative_altitude < s2._alt_max) then
        let r := Plane.parachute_release s2 now
        ⟨r.st, wDev, wLC, false, true, r.sentReleased⟩
      else ⟨s2, wDev, wLC, false, false, false⟩
    else ⟨s2, wDev, wLC, true, false, false⟩
  else ⟨s1, wDev, wLC, false, false, false⟩

/-- Function `Plane::parachute_emergency_check()` (ArduPlane/parachute.cpp):
the gating checks, the deviation warning, the altitude threshold check,
then `emergencyCore` for the control-loss / emergency logic. -/
def Plane.parachute_emergency_check (s : ParachuteState) (env : PlaneEnv) (now : Nat) :
    EmerOut :=
  if ¬ s.autoEnabledGet ∨ s._release_initiated then emergencyGatedOut s
  else if ¬ env.control_mode_AUTO then emergencyGatedOut s
  else if env.takeoff_complete = false ∨ env.land_complete = true ∨ env.nav_cmd_is_LAND then
    emergencyGatedOut s
  else
    let wDev := !(noDeviation s env)
    if env.relative_altitude > s._emergency_alt_threshold then
      { emergencyGatedOut s with warnDeviation := wDev }
    else emergencyCore s env now wDev

/-- The condition under which `Plane::parachute_emergency_check` reaches
the "at this point we consider control lost" section: every gating check
passes and the altitude is not above the emergency altitude threshold. -/
def emerCond (s : ParachuteState) (env : PlaneEnv) : Bool :=
  decide (s.autoEnabledGet = true ∧ s._release_initiated = false ∧
    env.control_mode_AUTO = true ∧ env.takeoff_complete = true ∧
    env.land_complete = false ∧ env.nav_cmd_is_LAND = false ∧
    env.relative_altitude ≤ s._emergency_alt_threshold)

/-- The altitude-bounds guard of the release attempt inside
`Plane::parachute_emergency_check` (line 120). -/
def altOkForRelease (s : ParachuteState) (env : PlaneEnv) : Bool :=
  decide (env.relative_altitude > s._alt_min ∧
    (s._alt_max < 0 ∨ env.relative_altitude < s._alt_max))

/-- The deviation condition exactly as worded by the specification claim
(for refinement comparison only; the source's condition is `noDeviation`):
deviation iff the roll magnitude exceeds roll limit plus roll margin, or
pitch exceeds pitch limit minus pitch margin, or sink rate exceeds the
sink-rate threshold. -/
def claimDeviation (s : ParachuteState) (env : PlaneEnv) : Bool :=
  decide (|env.roll_sensor| > env.roll_limit_cd + s._emergency_roll_margin) ||
  decide (env.pitch_sensor > env.pitch_limit_min_cd - s._emergency_pitch_margin) ||
  decide (env.sink_rate > s._emergency_sink_rate)

/-- Fold a list of `update` calls, collecting the actuator writes of each
call in order. -/
def updateRun (s : ParachuteState) : List Nat → ParachuteState × List (List ActCmd)
  | [] => (s, [])
  | t :: rest =>
      let r := s.update t
      let rr := updateRun r.1 rest
      (rr.1, r.2 :: rr.2)

/-- A concrete enabled, idle controller state (first relay trigger, no
delay, automatic release on) used by witnesses and counterexamples. -/
def sampleState : ParachuteState :=
  { _enabled := 1, _release_type := 0, _servo_on_pwm := 1900, _servo_off_pwm := 1100,
    _alt_min := 0, _alt_max := -1, _delay_ms := 0, _auto_enabled := 1,
    _emergency_roll_margin := 0, _emergency_pitch_margin := 0,
    _emergency_sink_rate := 5, _emergency_alt_threshold := 50,
    _release_duration_ms := 300, _release_time := 0, _release_in_progress := false,
    _released := false, _release_initiated := false,
    _control_loss_ms := 0, _emergency_start_ms := 0,
    notify_parachute_release := false }

/-- A concrete flight environment: flying in AUTO past takeoff, level
roll, nose well below the pitch limit, no sink, at 5 m above home. -/
def sampleEnv : PlaneEnv :=
  { is_flying := true, relative_altitude := 5, control_mode_AUTO := true,
    takeoff_complete := true, land_complete := false, nav_cmd_is_LAND := false,
    roll_sensor := 0, pitch_sensor := -3000, sink_rate := 0,
    roll_limit_cd := 4500, pitch_limit_min_cd := -2000 }

/-- The sample state with a 10 m minimum release altitude, so that the
5 m altitude of `sampleEnv` is below `_alt_min`. -/
def lowAltState : ParachuteState := { sampleState with _alt_min := 10 }

/-- The sample state with a 2 ms release delay and a 3 ms hold duration. -/
def c5State : ParachuteState :=
  { sampleState with _delay_ms := 2, _release_duration_ms := 3 }

/-- The sample state with a pending release stamped close to the top of
the 32-bit millisecond counter. -/
def wrapState : ParachuteState :=
  { sampleState with _release_time := 4294967291 % U32, _delay_ms := 3 }

/-- The sample state with the controller disabled. -/
def disabledState : ParachuteState := { sampleState with _enabled := 0 }

/-- The sample state with the released flag already latched. -/
def releasedState : ParachuteState := { sampleState with _released := true }

/-- The sample state with a pending release stamped at 7 ms. -/
def pendingState : ParachuteState := { sampleState with _release_time := 7 }

/-- The state reached from `sampleState` by a release at 5 ms followed by
the update at 6 ms that asserts the relay. -/
def c6_asserted : ParachuteState := ((sampleState.release 5).update 6).1

/-- The sample environment while not flying. -/
def notFlyingEnv : PlaneEnv := { sampleEnv with is_flying := false }

/-- The sample environment at 100 m above home, above the 50 m emergency
altitude threshold of `sampleState`. -/
def highAltEnv : PlaneEnv := { sampleEnv with relative_altitude := 100 }

theorem U32_eq : U32 = 4294967296 := by norm_num [U32]

theorem sub32_self_mod (a : Nat) : sub32 a (a % U32) = 0 := by
  simp only [sub32, U32_eq]
  omega

theorem sub32_eq_sub (a b : Nat) (hba : b ≤ a) (ha : a < U32) : sub32 a b = a - b := by
  simp only [sub32, U32_eq] at *
  omega

theorem sub32_wrap (t0 d : Nat) (hd : d < U32) :
    sub32 ((t0 + d) % U32) (t0 % U32) = d := by
  simp only [sub32, U32_eq] at *
  omega

theorem release_preserves_released (s : ParachuteState) (now : Nat) :
    (s.release now)._released = s._released := by
  simp only [ParachuteState.release]
  repeat' split
  all_goals rfl

theorem plane_release_preserves_released (s : ParachuteState) (now : Nat) :
    (Plane.parachute_release s now).st._released = s._released := by
  simp only [Plane.parachute_release]
  split
  · rfl
  · exact release_preserves_released s now

theorem update_preserves_released (s : ParachuteState) (now : Nat)
    (h : s._released = true) : (s.update now).1._released = true := by
  simp only [ParachuteState.update]
  repeat' split
  all_goals simp [h]

theorem emergencyCore_preserves_released (s : ParachuteState) (env : PlaneEnv) (now : Nat)
    (w : Bool) : (emergencyCore s env now w).st._released = s._released := by
  simp only [emergencyCore]
  repeat' split
  all_goals simp [plane_release_preserves_released]

theorem release_preserves_initiated (s : ParachuteState) (now : Nat)
    (h : s._release_initiated = true) : (s.release now)._release_initiated = true := by
  simp only [ParachuteState.release]
  repeat' split
  all_goals simp [h]

theorem update_preserves_initiated (s : ParachuteState) (now : Nat) :
    (s.update now).1._release_initiated = s._release_initiated := by
  simp only [ParachuteState.update]
  repeat' split
  all_goals rfl

theorem release_preserves_cl (s : ParachuteState) (now : Nat) :
    (s.release now)._control_loss_ms = s._control_loss_ms := by
  simp only [ParachuteState.release]
  repeat' split
  all_goals rfl

theorem plane_release_preserves_cl (s : ParachuteState) (now : Nat) :
    (Plane.parachute_release s now).st._control_loss_ms = s._control_loss_ms := by
  simp only [Plane.parachute_release]
  split
  · rfl
  · exact release_preserves_cl s now

theorem emergencyCore_warnRestored (s : ParachuteState) (env : PlaneEnv) (now : Nat)
    (w : Bool) : (emergencyCore s env now w).warnRestored = false := by
  simp only [emergencyCore]
  repeat' split
  all_goals
    first
    | rfl
    | (exfalso; simp_all [sub32_self_mod, PARACHUTE_EMERGENCY_DURATION_MS])

theorem updateRun_append (s : ParachuteState) (ts1 ts2 : List Nat) :
    updateRun s (ts1 ++ ts2) =
      ((updateRun (updateRun s ts1).1 ts2).1,
       (updateRun s ts1).2 ++ (updateRun (updateRun s ts1).1 ts2).2) := by
  induction ts1 generalizing s with
  | nil => simp [updateRun]
  | cons t rest ih => simp [updateRun, ih]

theorem update_pending_noop (s : ParachuteState) (t : Nat)
    (he : 0 < s._enabled) (hrt : s._release_time ≠ 0)
    (hip : s._release_in_progress = false)
    (hlt : sub32 t s._release_time < s.delayNat) :
    s.update t = (s, []) := by
  simp only [ParachuteState.update]
  rw [if_neg (by omega), if_pos ⟨hrt, hip⟩, if_neg (by omega)]

theorem update_holding_noop (s : ParachuteState) (t : Nat)
    (he : 0 < s._enabled) (hrt : s._release_time ≠ 0)
    (hip : s._release_in_progress = true)
    (hlt : sub32 t s._release_time < (s.delayNat + s._release_duration_ms) % U32) :
    s.update t = (s, []) := by
  simp only [ParachuteState.update]
  rw [if_neg (by omega : ¬ s._enabled ≤ 0), if_neg (by simp [hip]),
    if_neg (by push_neg; exact ⟨hrt, by omega⟩)]

theorem update_fire_on (s : ParachuteState) (t : Nat)
    (he : 0 < s._enabled) (hrt : s._release_time ≠ 0)
    (hip : s._release_in_progress = false)
    (hge : s.delayNat ≤ sub32 t s._release_time) :
    s.update t = ({ s with _release_in_progress := true, _released := true }, s.onCmds) := by
  simp only [ParachuteState.update]
  rw [if_neg (by omega), if_pos ⟨hrt, hip⟩, if_pos hge]

theorem update_fire_off (s : ParachuteState) (t : Nat)
    (he : 0 < s._enabled) (hip : s._release_in_progress = true)
    (hge : (s.delayNat + s._release_duration_ms) % U32 ≤ sub32 t s._release_time) :
    s.update t = ({ s with
        _release_in_progress := false, _release_time := 0,
        notify_parachute_release := false }, s.offCmds) := by
  simp only [ParachuteState.update]
  rw [if_neg (by omega : ¬ s._enabled ≤ 0), if_neg (by simp [hip]), if_pos (Or.inr hge)]

theorem updateRun_pending (ts : List Nat) (s : ParachuteState)
    (he : 0 < s._enabled) (hrt : s._release_time ≠ 0)
    (hip : s._release_in_progress = false)
    (hts : ∀ t ∈ ts, sub32 t s._release_time < s.delayNat) :
    updateRun s ts = (s, ts.map fun _ => []) := by
  induction ts with
  | nil => rfl
  | cons t rest ih =>
    have h1 : s.update t = (s, []) :=
      update_pending_noop s t he hrt hip (hts t (by simp))
    simp [updateRun, h1, ih (fun x hx => hts x (by simp [hx]))]

theorem updateRun_holding (ts : List Nat) (s : ParachuteState)
    (he : 0 < s._enabled) (hrt : s._release_time ≠ 0)
    (hip : s._release_in_progress = true)
    (hts : ∀ t ∈ ts, sub32 t s._release_time < (s.delayNat + s._release_duration_ms) % U32) :
    updateRun s ts = (s, ts.map fun _ => []) := by
  induction ts with
  | nil => rfl
  | cons t rest ih =>
    have h1 : s.update t = (s, []) :=
      update_holding_noop s t he hrt hip (hts t (by simp))
    simp [updateRun, h1, ih (fun x hx => hts x (by simp [hx]))]

/-- C1 (corrected): the monitor attempts a release only when the
emergency condition `emerCond` (all gating checks pass and altitude is at
most the emergency altitude threshold) has held continuously for more
than `PARACHUTE_CHECK_TRIGGER_MS` (1000 ms) — not the attitude/sink
deviation condition, which only controls a warning message.  Per tick:
a failing condition resets the timer and makes no attempt; a passing
condition with the timer idle stamps it to `now` and makes no attempt and
warns; a passing condition with the timer running keeps the timer and
attempts a release exactly when the elapsed time exceeds 1000 ms and the
`alt_min`/`alt_max` bounds pass.  Concretely, the condition held 999 ms
produces no attempt and held 1001 ms produces an attempt on the next
tick. -/
theorem c1_debounce_timing_amended (s : ParachuteState) (env : PlaneEnv) (now : Nat) :
    (emerCond s env = false →
      (Plane.parachute_emergency_check s env now).st._control_loss_ms = 0 ∧
      (Plane.parachute_emergency_check s env now).attempted = false) ∧
    (emerCond s env = true → s._control_loss_ms = 0 →
      (Plane.parachute_emergency_check s env now).st._control_loss_ms = now % U32 ∧
      (Plane.parachute_emergency_check s env now).attempted = false ∧
      (Plane.parachute_emergency_check s env now).warnLosingControl = true) ∧
    (emerCond s env = true → s._control_loss_ms ≠ 0 →
      (Plane.parachute_emergency_check s env now).st._control_loss_ms = s._control_loss_ms ∧
      (Plane.parachute_emergency_check s env now).attempted =
        (decide (sub32 now s._control_loss_ms > PARACHUTE_CHECK_TRIGGER_MS) &&
         altOkForRelease s env)) ∧
    ((Plane.parachute_emergency_check
        (Plane.parachute_emergency_check sampleState sampleEnv 100).st sampleEnv 1099).attempted
      = false) ∧
    ((Plane.parachute_emergency_check
        (Plane.parachute_emergency_check sampleState sampleEnv 100).st sampleEnv 1101).attempted
      = true) := by
  refine ⟨fun h => ?_, fun h hcl => ?_, fun h hcl => ?_, by decide, by decide⟩
  · simp only [Plane.parachute_emergency_check]
    by_cases h1 : ¬ s.autoEnabledGet ∨ s._release_initiated
    · rw [if_pos h1]
      exact ⟨rfl, rfl⟩
    · rw [if_neg h1]
      by_cases h2 : ¬ env.control_mode_AUTO
      · rw [if_pos h2]
        exact ⟨rfl, rfl⟩
      · rw [if_neg h2]
        by_cases h3 : env.takeoff_complete = false ∨ env.land_complete = true ∨ env.nav_cmd_is_LAND
        · rw [if_pos h3]
          exact ⟨rfl, rfl⟩
        · rw [if_neg h3]
          by_cases h4 : env.relative_altitude > s._emergency_alt_threshold
          · rw [if_pos h4]
            exact ⟨rfl, rfl⟩
          · exfalso
            simp only [emerCond, decide_eq_false_iff_not] at h
            simp only [not_or, not_not] at h1 h2 h3
            exact h ⟨h1.1, by simpa using h1.2, h2, by simpa using h3.1,
              by simpa using h3.2.1, by simpa using h3.2.2, not_lt.mp h4⟩
  · obtain ⟨h1, h2, h3, h4, h5, h6, h7⟩ := of_decide_eq_true h
    simp only [Plane.parachute_emergency_check]
    rw [if_neg (by simp [h1, h2]), if_neg (by simp [h3]), if_neg (by simp [h4, h5, h6]),
      if_neg (not_lt.mpr h7)]
    simp only [emergencyCore]
    rw [if_pos hcl]
    rw [if_neg (by simp [sub32_self_mod])]
    exact ⟨rfl, rfl, by simp [hcl]⟩
  · obtain ⟨h1, h2, h3, h4, h5, h6, h7⟩ := of_decide_eq_true h
    simp only [Plane.parachute_emergency_check]
    rw [if_neg (by simp [h1, h2]), if_neg (by simp [h3]), if_neg (by simp [h4, h5, h6]),
      if_neg (not_lt.mpr h7)]
    simp only [emergencyCore]
    rw [if_neg hcl]
    by_cases hem : sub32 now s._control_loss_ms > PARACHUTE_CHECK_TRIGGER_MS
    · rw [if_pos hem]
      rw [if_pos (show sub32 now (now % U32) < PARACHUTE_EMERGENCY_DURATION_MS by
        simp [sub32_self_mod, PARACHUTE_EMERGENCY_DURATION_MS])]
      by_cases halt : env.relative_altitude > s._alt_min ∧
          (s._alt_max < 0 ∨ env.relative_altitude < s._alt_max)
      · rw [if_pos halt]
        refine ⟨?_, ?_⟩
        · rw [plane_release_preserves_cl]
        · simp [altOkForRelease, halt, hem]
      · rw [if_neg halt]
        exact ⟨rfl, by simp [altOkForRelease, halt]⟩
    · rw [if_neg hem]
      exact ⟨rfl, by simp [hem]⟩

/-- C1 counterexample: a run in which the claim's deviation condition is
false at every tick (level roll, nose far below the pitch limit, zero
sink rate), yet the monitor attempts — and performs — a release once the
altitude has been at most the emergency altitude threshold for more than
1000 ms. -/
theorem c1_counterexample :
    claimDeviation sampleState sampleEnv = false ∧
    claimDeviation (Plane.parachute_emergency_check sampleState sampleEnv 100).st sampleEnv
      = false ∧
    (Plane.parachute_emergency_check
        (Plane.parachute_emergency_check sampleState sampleEnv 100).st sampleEnv 1101).attempted
      = true ∧
    (Plane.parachute_emergency_check
        (Plane.parachute_emergency_check sampleState sampleEnv 100).st sampleEnv 1101).sentReleased
      = true := by
  decide

/-- C1 witness: the amended theorem evaluated on the sample state with
the emergency condition true and the timer idle. -/
theorem c1_debounce_timing_witness :
    emerCond sampleState sampleEnv = true ∧
    (Plane.parachute_emergency_check sampleState sampleEnv 100).st._control_loss_ms = 100 % U32 ∧
    (Plane.parachute_emergency_check sampleState sampleEnv 100).attempted = false := by
  refine ⟨by decide, ?_, ?_⟩
  · exact ((c1_debounce_timing_amended sampleState sampleEnv 100).2.1 (by decide) (by decide)).1
  · exact ((c1_debounce_timing_amended sampleState sampleEnv 100).2.1 (by decide)
      (by decide)).2.1

/-- C2 (code bug): the "Emergency: Control restored" branch of
`Plane::parachute_emergency_check` is unreachable for every state, input
and time, because `_emergency_start_ms` is re-stamped to `now` on every
tick on which the trigger has been exceeded, so the 2000 ms window can
never be observed as elapsed; concretely, with release blocked by the
`alt_min` bound, 2399 ms after the emergency started the timers are still
running (not reset to 0) and no restore message has been sent. -/
theorem c2_control_restored_never_emitted (s : ParachuteState) (env : PlaneEnv) (now : Nat) :
    (Plane.parachute_emergency_check s env now).warnRestored = false ∧
    ((Plane.parachute_emergency_check
        (Plane.parachute_emergency_check
          (Plane.parachute_emergency_check lowAltState sampleEnv 100).st
          sampleEnv 1101).st sampleEnv 3500).st._control_loss_ms = 100) ∧
    ((Plane.parachute_emergency_check
        (Plane.parachute_emergency_check
          (Plane.parachute_emergency_check lowAltState sampleEnv 100).st
          sampleEnv 1101).st sampleEnv 3500).st._emergency_start_ms = 3500) ∧
    ((Plane.parachute_emergency_check
        (Plane.parachute_emergency_check
          (Plane.parachute_emergency_check lowAltState sampleEnv 100).st
          sampleEnv 1101).st sampleEnv 3500).sentReleased = false) := by
  refine ⟨?_, by decide, by decide, by decide⟩
  unfold Plane.parachute_emergency_check
  repeat' split
  all_goals first
    | rfl
    | exact emergencyCore_warnRestored _ _ _ _

/-- C3 (corrected): the canonical `Plane::parachute_manual_release`
checks, in order, only disabled-or-released and not-flying; when both
pass it releases and reports success with no altitude check at all.  The
earlier revision additionally rejects with "too low" when the altitude is
below `alt_min`, and neither revision has an `alt_max` check. -/
theorem c3_manual_release_checks_amended (s : ParachuteState) (env : PlaneEnv) (now : Nat) :
    ((¬ s.enabledGet ∨ s._released) →
      Plane.parachute_manual_release s env now = ⟨false, s, false, false, false⟩) ∧
    (s.enabledGet → s._released = false → env.is_flying = false →
      Plane.parachute_manual_release s env now = ⟨false, s, true, false, false⟩) ∧
    (s.enabledGet → s._released = false → env.is_flying = true →
      Plane.parachute_manual_release s env now = ⟨true, s.release now, false, false, true⟩) ∧
    (s.enabledGet → s._released = false → env.is_flying = true →
      env.relative_altitude < s._alt_min →
      Plane.parachute_manual_release_v0 s env now = ⟨false, s, false, true, false⟩) ∧
    (s.enabledGet → s._released = false → env.is_flying = true →
      s._alt_min ≤ env.relative_altitude →
      Plane.parachute_manual_release_v0 s env now = ⟨true, s.release now, false, false, true⟩) := by
  refine ⟨fun h => ?_, fun he hr hf => ?_, fun he hr hf => ?_, fun he hr hf ha => ?_,
    fun he hr hf ha => ?_⟩
  · simp only [Plane.parachute_manual_release]
    rw [if_pos h]
  · simp only [Plane.parachute_manual_release]
    rw [if_neg (by simp [he, hr]), if_pos (by simp [hf])]
  · simp only [Plane.parachute_manual_release]
    rw [if_neg (by simp [he, hr]), if_neg (by simp [hf])]
    simp [Plane.parachute_release, hr]
  · simp only [Plane.parachute_manual_release_v0]
    rw [if_neg (by simp [he, hr]), if_neg (by simp [hf]), if_pos ha]
  · simp only [Plane.parachute_manual_release_v0]
    rw [if_neg (by simp [he, hr]), if_neg (by simp [hf]), if_neg (by omega)]
    simp [Plane.parachute_release, hr]

/-- C3 counterexample: a flying, enabled state at 5 m with
`alt_min = 10 m`: the claim demands a "too low" rejection, but the
canonical manual release succeeds and sends no "too low" message. -/
theorem c3_counterexample :
    sampleEnv.relative_altitude < lowAltState._alt_min ∧
    sampleEnv.is_flying = true ∧
    lowAltState.enabledGet = true ∧
    lowAltState._released = false ∧
    (Plane.parachute_manual_release lowAltState sampleEnv 50).ret = true ∧
    (Plane.parachute_manual_release lowAltState sampleEnv 50).sentTooLow = false := by
  decide

/-- C3 witness: the amended theorem evaluated on the not-flying
rejection, the canonical success path, and the earlier revision's "too
low" rejection. -/
theorem c3_manual_release_checks_witness :
    Plane.parachute_manual_release sampleState notFlyingEnv 50 =
      ⟨false, sampleState, true, false, false⟩ ∧
    Plane.parachute_manual_release sampleState sampleEnv 50 =
      ⟨true, sampleState.release 50, false, false, true⟩ ∧
    Plane.parachute_manual_release_v0 lowAltState sampleEnv 50 =
      ⟨false, lowAltState, false, true, false⟩ := by
  refine ⟨?_, ?_, ?_⟩
  · exact (c3_manual_release_checks_amended sampleState notFlyingEnv 50).2.1
      (by decide) (by decide) (by decide)
  · exact (c3_manual_release_checks_amended sampleState sampleEnv 50).2.2.1
      (by decide) (by decide) (by decide)
  · exact (c3_manual_release_checks_amended lowAltState sampleEnv 50).2.2.2.1
      (by decide) (by decide) (by decide) (by decide)

/-- C4 (corrected): the gating checks of the emergency monitor are:
automatic release disabled or release already initiated; not in AUTO
mode; takeoff not complete, landing complete, or next command a landing
command; and altitude above home greater than the emergency altitude
threshold (not below `alt_min` — the `alt_min`/`alt_max` bounds are only
checked inside the release attempt).  Each failing gate forces the reset
output: `_control_loss_ms` zeroed, no attempt, no release, and no other
state change. -/
theorem c4_gating_amended (s : ParachuteState) (env : PlaneEnv) (now : Nat) :
    ((¬ s.autoEnabledGet ∨ s._release_initiated) →
      Plane.parachute_emergency_check s env now = emergencyGatedOut s) ∧
    (env.control_mode_AUTO = false →
      Plane.parachute_emergency_check s env now = emergencyGatedOut s) ∧
    ((env.takeoff_complete = false ∨ env.land_complete = true ∨ env.nav_cmd_is_LAND) →
      Plane.parachute_emergency_check s env now = emergencyGatedOut s) ∧
    (env.relative_altitude > s._emergency_alt_threshold →
      (Plane.parachute_emergency_check s env now).st = { s with _control_loss_ms := 0 } ∧
      (Plane.parachute_emergency_check s env now).attempted = false ∧
      (Plane.parachute_emergency_check s env now).sentReleased = false ∧
      (Plane.parachute_emergency_check s env now).warnLosingControl = false ∧
      (Plane.parachute_emergency_check s env now).warnRestored = false) := by
  refine ⟨fun h => ?_, fun h => ?_, fun h => ?_, fun h => ?_⟩
  · simp only [Plane.parachute_emergency_check]
    rw [if_pos h]
  · simp only [Plane.parachute_emergency_check]
    by_cases h1 : ¬ s.autoEnabledGet ∨ s._release_initiated
    · rw [if_pos h1]
    · rw [if_neg h1, if_pos (by simp [h])]
  · simp only [Plane.parachute_emergency_check]
    by_cases h1 : ¬ s.autoEnabledGet ∨ s._release_initiated
    · rw [if_pos h1]
    · rw [if_neg h1]
      by_cases h2 : ¬ env.control_mode_AUTO
      · rw [if_pos h2]
      · rw [if_neg h2, if_pos h]
  · simp only [Plane.parachute_emergency_check]
    by_cases h1 : ¬ s.autoEnabledGet ∨ s._release_initiated
    · rw [if_pos h1]
      exact ⟨rfl, rfl, rfl, rfl, rfl⟩
    · rw [if_neg h1]
      by_cases h2 : ¬ env.control_mode_AUTO
      · rw [if_pos h2]
        exact ⟨rfl, rfl, rfl, rfl, rfl⟩
      · rw [if_neg h2]
        by_cases h3 : env.takeoff_complete = false ∨ env.land_complete = true ∨ env.nav_cmd_is_LAND
        · rw [if_pos h3]
          exact ⟨rfl, rfl, rfl, rfl, rfl⟩
        · rw [if_neg h3, if_pos h]
          exact ⟨rfl, rfl, rfl, rfl, rfl⟩

/-- C4 counterexample: with altitude 5 m below `alt_min = 10 m` (and at
most the emergency altitude threshold), the claim demands the monitor
force Normal and reset the timer to 0, but the tick stamps
`_control_loss_ms` to `now = 100` instead. -/
theorem c4_counterexample :
    sampleEnv.relative_altitude < lowAltState._alt_min ∧
    lowAltState.autoEnabledGet = true ∧
    (Plane.parachute_emergency_check lowAltState sampleEnv 100).st._control_loss_ms = 100 := by
  decide

/-- C4 witness: the amended theorem evaluated on a disabled-auto gate and
on the above-threshold altitude gate. -/
theorem c4_gating_witness :
    Plane.parachute_emergency_check { sampleState with _auto_enabled := 0 } sampleEnv 77 =
      emergencyGatedOut { sampleState with _auto_enabled := 0 } ∧
    (Plane.parachute_emergency_check sampleState highAltEnv 100).st =
      { sampleState with _control_loss_ms := 0 } ∧
    (Plane.parachute_emergency_check sampleState highAltEnv 100).attempted = false := by
  refine ⟨?_, ?_, ?_⟩
  · exact (c4_gating_amended { sampleState with _auto_enabled := 0 } sampleEnv 77).1 (by decide)
  · exact ((c4_gating_amended sampleState highAltEnv 100).2.2.2 (by decide)).1
  · exact ((c4_gating_amended sampleState highAltEnv 100).2.2.2 (by decide)).2.1

/-- C5 (confirmed): from an enabled idle controller, `release()` at `t0`
followed by any ticks `pre` before elapsed reaches the clamped delay `D`,
then the first tick `a` with elapsed at least `D`, then any ticks `mid`
before elapsed reaches `D` plus the hold duration, then the first tick
`b` with elapsed at least `D` plus the hold duration: every `pre` and
`mid` tick issues no actuator write, tick `a` issues the ON writes and
sets `release_in_progress` and latches `released`, and tick `b` issues
the OFF writes, clearing `release_in_progress` and the request stamp
while `released` stays latched. -/
theorem c5_timed_actuation_sequence (s : ParachuteState) (t0 a b : Nat) (pre mid : List Nat)
    (he : 0 < s._enabled)
    (hidle : s._release_time = 0)
    (hip : s._release_in_progress = false)
    (ht0 : 0 < t0)
    (hsum : s.delayNat + s._release_duration_ms < U32)
    (ha : t0 + s.delayNat ≤ a) (haU : a < U32)
    (hb : t0 + s.delayNat + s._release_duration_ms ≤ b) (hbU : b < U32)
    (hpre : ∀ t ∈ pre, t0 ≤ t ∧ t < t0 + s.delayNat)
    (hmid : ∀ t ∈ mid, t0 ≤ t ∧ t < t0 + s.delayNat + s._release_duration_ms) :
    (updateRun (s.release t0) pre).2 = pre.map (fun _ => []) ∧
    (updateRun (s.release t0) (pre ++ [a])).2 = pre.map (fun _ => []) ++ [s.onCmds] ∧
    (updateRun (s.release t0) (pre ++ [a])).1._release_in_progress = true ∧
    (updateRun (s.release t0) (pre ++ [a])).1._released = true ∧
    (updateRun (s.release t0) (pre ++ [a])).1._release_time = t0 ∧
    (updateRun (s.release t0) (pre ++ a :: (mid ++ [b]))).2 =
      pre.map (fun _ => []) ++ s.onCmds :: (mid.map (fun _ => []) ++ [s.offCmds]) ∧
    (updateRun (s.release t0) (pre ++ a :: (mid ++ [b]))).1._release_in_progress = false ∧
    (updateRun (s.release t0) (pre ++ a :: (mid ++ [b]))).1._release_time = 0 ∧
    (updateRun (s.release t0) (pre ++ a :: (mid ++ [b]))).1._released = true := by
  have ht0U : t0 < U32 := lt_of_le_of_lt (le_trans (Nat.le_add_right t0 s.delayNat) ha) haU
  have hs1 : s.release t0 = { s with
      _release_time := t0, _release_initiated := true,
      notify_parachute_release := true } := by
    simp only [ParachuteState.release]
    rw [if_neg (by omega), if_pos hidle, Nat.mod_eq_of_lt ht0U]
  have hpreRun :
      updateRun { s with
        _release_time := t0, _release_initiated := true,
        notify_parachute_release := true } pre =
      ({ s with
        _release_time := t0, _release_initiated := true,
        notify_parachute_release := true }, pre.map fun _ => []) := by
    refine updateRun_pending pre _ he (by show t0 ≠ 0; omega) hip ?_
    intro t ht
    have h1 := (hpre t ht).1
    have h2 := (hpre t ht).2
    have htU : t < U32 := lt_of_lt_of_le h2 (le_trans ha (le_of_lt haU))
    show sub32 t t0 < s.delayNat
    rw [sub32_eq_sub t t0 h1 htU]
    omega
  have haStep :
      ParachuteState.update { s with
        _release_time := t0, _release_initiated := true,
        notify_parachute_release := true } a =
      ({ s with
        _release_time := t0, _release_initiated := true,
        notify_parachute_release := true, _release_in_progress := true,
        _released := true }, s.onCmds) := by
    refine update_fire_on _ a he (by show t0 ≠ 0; omega) hip ?_
    show s.delayNat ≤ sub32 a t0
    rw [sub32_eq_sub a t0 (le_trans (Nat.le_add_right t0 s.delayNat) ha) haU]
    omega
  have hmidRun :
      updateRun { s with
        _release_time := t0, _release_initiated := true,
        notify_parachute_release := true, _release_in_progress := true,
        _released := true } mid =
      ({ s with
        _release_time := t0, _release_initiated := true,
        notify_parachute_release := true, _release_in_progress := true,
        _released := true }, mid.map fun _ => []) := by
    refine updateRun_holding mid _ he (by show t0 ≠ 0; omega) rfl ?_
    intro t ht
    have h1 := (hmid t ht).1
    have h2 := (hmid t ht).2
    have htU : t < U32 := lt_of_lt_of_le h2 (le_trans hb (le_of_lt hbU))
    show sub32 t t0 < (s.delayNat + s._release_duration_ms) % U32
    rw [sub32_eq_sub t t0 h1 htU, Nat.mod_eq_of_lt hsum]
    omega
  have hbStep :
      ParachuteState.update { s with
        _release_time := t0, _release_initiated := true,
        notify_parachute_release := true, _release_in_progress := true,
        _released := true } b =
      ({ s with
        _release_time := 0, _release_initiated := true,
        notify_parachute_release := false, _release_in_progress := false,
        _released := true }, s.offCmds) := by
    refine update_fire_off _ b he rfl ?_
    show (s.delayNat + s._release_duration_ms) % U32 ≤ sub32 b t0
    rw [sub32_eq_sub b t0 (by omega) hbU, Nat.mod_eq_of_lt hsum]
    omega
  have hA :
      updateRun (s.release t0) (pre ++ [a]) =
      ({ s with
        _release_time := t0, _release_initiated := true,
        notify_parachute_release := true, _release_in_progress := true,
        _released := true }, pre.map (fun _ => []) ++ [s.onCmds]) := by
    rw [hs1, updateRun_append, hpreRun]
    simp [updateRun, haStep]
  have hB :
      updateRun (s.release t0) (pre ++ a :: (mid ++ [b])) =
      ({ s with
        _release_time := 0, _release_initiated := true,
        notify_parachute_release := false, _release_in_progress := false,
        _released := true },
       pre.map (fun _ => []) ++ s.onCmds :: (mid.map (fun _ => []) ++ [s.offCmds])) := by
    have hsplit : pre ++ a :: (mid ++ [b]) = (pre ++ [a]) ++ (mid ++ [b]) := by simp
    rw [hsplit, updateRun_append, hA, updateRun_append, hmidRun]
    simp [updateRun, hbStep]
  refine ⟨?_, ?_, ?_, ?_, ?_, ?_, ?_, ?_, ?_⟩
  · rw [hs1, hpreRun]
  · rw [hA]
  · rw [hA]
  · rw [hA]
  · rw [hA]
  · rw [hB]
  · rw [hB]
  · rw [hB]
  · rw [hB]

/-- C5 witness: delay 2 ms and hold 3 ms, released at 100 ms, updates at
100..105 ms: no writes at 100 and 101, ON at 102, no writes at 103 and
104, OFF at 105. -/
theorem c5_timed_actuation_sequence_witness :
    (updateRun (c5State.release 100) ([100, 101] ++ 102 :: ([103, 104] ++ [105]))).2 =
      [100, 101].map (fun _ => []) ++
        c5State.onCmds :: ([103, 104].map (fun _ => []) ++ [c5State.offCmds]) ∧
    (updateRun (c5State.release 100) ([100, 101] ++ [102])).1._release_in_progress = true := by
  have h := c5_timed_actuation_sequence c5State 100 102 105 [100, 101] [103, 104]
    (by decide) (by decide) (by decide) (by decide) (by decide)
    (by decide) (by decide) (by decide) (by decide) (by decide) (by decide)
  exact ⟨h.2.2.2.2.2.1, h.2.2.1⟩

/-- C6 (corrected): `enabled(on_off)` unconditionally resets
`_release_time` to 0, but a subsequent `update()` while disabled returns
immediately and issues no actuator write at all, so the OFF state is not
restored; only an `update()` after re-enabling issues the OFF writes. -/
theorem c6_disable_aborts_amended (s : ParachuteState) (b : Bool) (now : Nat) :
    ((s.enabled b)._release_time = 0) ∧
    (s._enabled ≤ 0 → s.update now = (s, [])) ∧
    ((s.enabled true).update now =
      ({ (s.enabled true) with
          _release_in_progress := false,
          notify_parachute_release := false }, s.offCmds)) := by
  refine ⟨rfl, fun h => ?_, ?_⟩
  · simp only [ParachuteState.update]
    rw [if_pos h]
  · simp only [ParachuteState.update, ParachuteState.enabled, ParachuteState.offCmds]
    norm_num

/-- C6 counterexample: with the relay asserted mid-sequence,
`enabled(false)` resets the request stamp, but the next `update()`
returns the state unchanged with no actuator write — it does not restore
the relay to OFF as the claim states. -/
theorem c6_counterexample :
    ((sampleState.release 5).update 6).2 = [ActCmd.relayOn 0] ∧
    c6_asserted._release_in_progress = true ∧
    (c6_asserted.enabled false)._release_time = 0 ∧
    ((c6_asserted.enabled false).update 7) = (c6_asserted.enabled false, []) := by
  decide

/-- C6 witness: the amended theorem evaluated on a disabled state (update
is a no-op) and on the sample state (the stamp is cleared). -/
theorem c6_disable_aborts_witness :
    disabledState.update 7 = (disabledState, []) ∧
    (sampleState.enabled false)._release_time = 0 := by
  exact ⟨(c6_disable_aborts_amended disabledState false 7).2.1 (by decide),
         (c6_disable_aborts_amended sampleState false 7).1⟩

/-- C7 (confirmed): once `_released` is true it stays true across every
`release()`, `update()`, emergency-monitor tick and manual-release call;
no modelled operation clears it (`enabled(false)` included, so the claim
that nothing other than `enabled(false)` clears it holds a fortiori). -/
theorem c7_released_latched (s : ParachuteState) (env : PlaneEnv) (now : Nat) (b : Bool)
    (h : s._released = true) :
    (s.release now)._released = true ∧
    ((s.update now).1._released = true) ∧
    ((s.enabled b)._released = true) ∧
    ((Plane.parachute_emergency_check s env now).st._released = true) ∧
    ((Plane.parachute_manual_release s env now).st._released = true) := by
  refine ⟨by rw [release_preserves_released]; exact h,
          update_preserves_released s now h, by simp [ParachuteState.enabled, h], ?_, ?_⟩
  · unfold Plane.parachute_emergency_check
    repeat' split
    all_goals try exact (emergencyCore_preserves_released s env now _).trans h
    all_goals simp [emergencyGatedOut, h]
  · unfold Plane.parachute_manual_release
    rw [if_pos (Or.inr h)]
    exact h

/-- C7 witness: the latch theorem evaluated on a state with the released
flag set. -/
theorem c7_released_latched_witness :
    (releasedState.release 3)._released = true ∧
    (releasedState.update 3).1._released = true ∧
    ((releasedState.enabled false)._released = true) := by
  exact ⟨(c7_released_latched releasedState sampleEnv 3 false (by decide)).1,
         (c7_released_latched releasedState sampleEnv 3 false (by decide)).2.1,
         (c7_released_latched releasedState sampleEnv 3 false (by decide)).2.2.1⟩

/-- C8 (confirmed): `release()` never moves a nonzero `_release_time`;
it stamps the current time (as a 32-bit value) exactly when called in the
idle state with the controller enabled, and is a complete no-op when
disabled. -/
theorem c8_release_idempotent (s : ParachuteState) (now : Nat) :
    (s._release_time ≠ 0 → (s.release now)._release_time = s._release_time) ∧
    (s._release_time = 0 → 0 < s._enabled → (s.release now)._release_time = now % U32) ∧
    (s._enabled ≤ 0 → s.release now = s) := by
  refine ⟨fun h => ?_, fun h he => ?_, fun he => ?_⟩
  · simp only [ParachuteState.release]
    split
    · rfl
    · simp [h]
  · simp only [ParachuteState.release]
    rw [if_neg (by omega)]
    simp [h]
  · simp only [ParachuteState.release]
    rw [if_pos he]

/-- C8 witness: the idempotence theorem evaluated on a pending state (the
stamp does not move), on the idle sample state (the stamp is taken), and
on a disabled state (no-op). -/
theorem c8_release_idempotent_witness :
    (pendingState.release 42)._release_time = pendingState._release_time ∧
    (sampleState.release 42)._release_time = 42 % U32 ∧
    disabledState.release 9 = disabledState := by
  exact ⟨(c8_release_idempotent pendingState 42).1 (by decide),
         (c8_release_idempotent sampleState 42).2.1 (by decide) (by decide),
         (c8_release_idempotent disabledState 9).2.2 (by decide)⟩

/-- C9 (confirmed): the elapsed-time computation `sub32` (the unsigned
32-bit subtraction used by `update` and the emergency monitor) recovers
the true elapsed duration for every start time and every duration below
`2 ^ 32`, including across wraparound of the millisecond counter, and
consequently the actuation decision of `update` fires exactly when the
true elapsed duration reaches the configured delay. -/
theorem c9_wraparound_elapsed (t0 d : Nat) (s : ParachuteState) (hd : d < U32) :
    sub32 ((t0 + d) % U32) (t0 % U32) = d ∧
    (0 < s._enabled → s._release_time = t0 % U32 → s._release_time ≠ 0 →
      s._release_in_progress = false →
      (s.update ((t0 + d) % U32)).1._release_in_progress = decide (s.delayNat ≤ d)) := by
  refine ⟨sub32_wrap t0 d hd, fun he hrt hne hip => ?_⟩
  simp only [ParachuteState.update]
  rw [if_neg (by omega), if_pos ⟨hne, hip⟩, hrt, sub32_wrap t0 d hd]
  by_cases hdd : s.delayNat ≤ d
  · rw [if_pos hdd]
    simp [hdd]
  · rw [if_neg hdd]
    simp [hdd, hip]

/-- C9 witness: a release stamped 5 ms before the 32-bit counter wraps,
evaluated 10 ms later (numerically, `now = 5` is smaller than the stored
stamp): the elapsed time computes to 10 and the 3 ms delay decision
fires. -/
theorem c9_wraparound_elapsed_witness :
    sub32 ((4294967291 + 10) % U32) (4294967291 % U32) = 10 ∧
    (wrapState.update ((4294967291 + 10) % U32)).1._release_in_progress =
      decide (wrapState.delayNat ≤ 10) := by
  exact ⟨(c9_wraparound_elapsed 4294967291 10 wrapState (by norm_num [U32])).1,
         (c9_wraparound_elapsed 4294967291 10 wrapState (by norm_num [U32])).2 (by decide)
           (by decide) (by decide) (by decide)⟩

/-- C10 (confirmed): once `release()` has run with the controller enabled,
`_release_initiated` is true and is preserved by `update()` and by
further `release()` calls, and every emergency-monitor tick with it set
returns the gated output immediately: timer reset to 0, no warning, no
attempt, no other state change. -/
theorem c10_release_initiated_gates_monitor (s : ParachuteState) (env : PlaneEnv) (now : Nat) :
    (s._release_initiated = true →
      Plane.parachute_emergency_check s env now = emergencyGatedOut s) ∧
    (0 < s._enabled → (s.release now)._release_initiated = true) ∧
    ((s.update now).1._release_initiated = s._release_initiated) ∧
    (s._release_initiated = true → (s.release now)._release_initiated = true) := by
  refine ⟨fun h => ?_, fun h => ?_, update_preserves_initiated s now,
    fun h => release_preserves_initiated s now h⟩
  · unfold Plane.parachute_emergency_check
    rw [if_pos (Or.inr h)]
  · simp only [ParachuteState.release]
    rw [if_neg (by omega)]

/-- C10 witness: the gating theorem evaluated on the sample state with
the initiated flag set, and the flag set by a release on the enabled
sample state. -/
theorem c10_release_initiated_gates_monitor_witness :
    Plane.parachute_emergency_check { sampleState with _release_initiated := true } sampleEnv 42 =
      emergencyGatedOut { sampleState with _release_initiated := true } ∧
    (sampleState.release 7)._release_initiated = true := by
  exact ⟨(c10_release_initiated_gates_monitor { sampleState with _release_initiated := true }
            sampleEnv 42).1 (by decide),
         (c10_release_initiated_gates_monitor sampleState sampleEnv 7).2.1 (by decide)⟩

end ArduPilot
